import Mathlib

/-!
Verification of `src/skidl/tools/kicad/geometry.py` (Point and BBox).

Coordinates in the Python code are ints or IEEE floats; the code relies on
`float("inf")` sentinels and on Python's numeric comparisons.  We embed the
numeric domain as an extended-rational type `Coord` with explicit `pinf`,
`ninf` and `nan` values, and arithmetic/comparison following Python float
semantics (`inf + -inf = nan`, comparisons with `nan` are false, ...).
Finite values are idealized as exact rationals.

Python-level failures (raised exceptions) are embedded with `Except`.
-/

inductive Coord where
  | nan : Coord
  | ninf : Coord
  | pinf : Coord
  | fin : ℚ → Coord
deriving DecidableEq

namespace Coord

/-- Python float addition: `nan` propagates, `inf + -inf = nan`. -/
def add : Coord → Coord → Coord
  | nan, _ => nan
  | _, nan => nan
  | pinf, ninf => nan
  | ninf, pinf => nan
  | pinf, _ => pinf
  | _, pinf => pinf
  | ninf, _ => ninf
  | _, ninf => ninf
  | fin a, fin b => fin (a + b)

/-- Python float negation. -/
def neg : Coord → Coord
  | nan => nan
  | pinf => ninf
  | ninf => pinf
  | fin a => fin (-a)

/-- Python float subtraction (`a - b = a + (-b)` for these values). -/
def sub (a b : Coord) : Coord := a.add b.neg

/-- Python float multiplication: `nan` propagates, `inf * 0 = nan`,
otherwise infinities follow the sign of the other factor. -/
def mul : Coord → Coord → Coord
  | nan, _ => nan
  | _, nan => nan
  | pinf, pinf => pinf
  | pinf, ninf => ninf
  | ninf, pinf => ninf
  | ninf, ninf => pinf
  | pinf, fin b => if b = 0 then nan else if 0 < b then pinf else ninf
  | fin a, pinf => if a = 0 then nan else if 0 < a then pinf else ninf
  | ninf, fin b => if b = 0 then nan else if 0 < b then ninf else pinf
  | fin a, ninf => if a = 0 then nan else if 0 < a then ninf else pinf
  | fin a, fin b => fin (a * b)

/-- Python `abs` on these values. -/
def abs : Coord → Coord
  | nan => nan
  | pinf => pinf
  | ninf => pinf
  | fin a => fin |a|

/-- Python float `<`: any comparison involving `nan` is false. -/
def lt : Coord → Coord → Bool
  | nan, _ => false
  | _, nan => false
  | ninf, ninf => false
  | ninf, _ => true
  | _, ninf => false
  | pinf, _ => false
  | fin _, pinf => true
  | fin a, fin b => decide (a < b)

/-- Python float `<=`: any comparison involving `nan` is false. -/
def le : Coord → Coord → Bool
  | nan, _ => false
  | _, nan => false
  | ninf, _ => true
  | _, ninf => false
  | _, pinf => true
  | pinf, _ => false
  | fin a, fin b => decide (a ≤ b)

/-- `c` is a value of the real-valued-or-infinite coordinate domain
(the data model's coordinates; everything except `nan`). -/
def notNan (c : Coord) : Prop := c ≠ nan

instance : DecidablePred notNan := fun c => by unfold notNan; infer_instance

end Coord

/-- Python's two-argument builtin `min(a, b)`: keeps `a` unless `b < a`. -/
def pymin (a b : Coord) : Coord := if b.lt a then b else a

/-- Python's two-argument builtin `max(a, b)`: keeps `a` unless `b > a`
(i.e. `a < b`). -/
def pymax (a b : Coord) : Coord := if a.lt b then b else a

/-- Python exceptions relevant to this module. -/
inductive PyErr where
  | typeError : PyErr
  | valueError : PyErr
  | overflowError : PyErr
  | notImplementedError : PyErr
deriving DecidableEq

/-- Round-half-to-even (banker's rounding) of a rational to an integer:
the semantics of Python's builtin `round` on an exact value. -/
def roundHalfEven (q : ℚ) : ℤ :=
  let f := ⌊q⌋
  let r := q - (f : ℚ)
  if r < 1/2 then f
  else if 1/2 < r then f + 1
  else if f % 2 = 0 then f else f + 1

/-- Python `round(x, n)` on a float/int value: rounds a finite value to `n`
decimal digits (half-to-even); `round(inf, n) = inf`, `round(nan, n) = nan`. -/
def roundToDigits (c : Coord) (n : ℤ) : Coord :=
  match c with
  | Coord.fin q => Coord.fin ((roundHalfEven (q * (10 : ℚ) ^ n) : ℚ) / (10 : ℚ) ^ n)
  | c => c

/-- Python `int(round(x))` on a float/int value: a finite value is rounded
half-to-even to an integer; an infinity raises `OverflowError` and `nan`
raises `ValueError`. -/
def intRound (c : Coord) : Except PyErr ℤ :=
  match c with
  | Coord.fin q => Except.ok (roundHalfEven q)
  | Coord.pinf => Except.error PyErr.overflowError
  | Coord.ninf => Except.error PyErr.overflowError
  | Coord.nan => Except.error PyErr.valueError

/-- `Point` from geometry.py: a pair of numeric coordinates. -/
structure Point where
  x : Coord
  y : Coord
deriving DecidableEq

/-- The right operand of `Point.__add__` / `Point.__sub__`: either another
`Point` or a plain scalar number. -/
inductive PtOrNum where
  | pt : Point → PtOrNum
  | num : Coord → PtOrNum
deriving DecidableEq

namespace Point

/-- `Point.__add__`: a non-`Point` operand is first wrapped as
`Point(pt, pt)`, then coordinates are added componentwise. -/
def add (self : Point) (other : PtOrNum) : Point :=
  let pt : Point :=
    match other with
    | PtOrNum.pt p => p
    | PtOrNum.num c => ⟨c, c⟩
  ⟨self.x.add pt.x, self.y.add pt.y⟩

/-- `Point.__sub__`: same scalar-broadcast rule, componentwise subtraction. -/
def sub (self : Point) (other : PtOrNum) : Point :=
  let pt : Point :=
    match other with
    | PtOrNum.pt p => p
    | PtOrNum.num c => ⟨c, c⟩
  ⟨self.x.sub pt.x, self.y.sub pt.y⟩

/-- `Point.__round__(self, n)`: both coordinates rounded to `n` decimal
digits; returns a new Point. -/
def round_to (self : Point) (n : ℤ) : Point :=
  ⟨roundToDigits self.x n, roundToDigits self.y n⟩

/-- The Python builtin call `round(p)` / `round(p, n)` on a Point.
`Point.__round__` declares a required parameter `n`, so the one-argument
call `round(p)` (which invokes `p.__round__()` with no arguments) raises
`TypeError`; with `ndigits` supplied it returns `p.round_to n`. -/
def pyRound (self : Point) (ndigits : Option ℤ) : Except PyErr Point :=
  match ndigits with
  | none => Except.error PyErr.typeError
  | some n => Except.ok (self.round_to n)

/-- `Point.round`: in-place rounding.  The body runs
`self.x = int(round(self.x)); self.y = int(round(self.y))` inside a
`try/except OverflowError: pass`, so an `OverflowError` stops the remaining
assignments and is swallowed, while other exceptions propagate.  Returns
the final state of the point (or the error that escaped). -/
def round (self : Point) : Except PyErr Point :=
  match intRound self.x with
  | Except.error PyErr.overflowError => Except.ok self
  | Except.error e => Except.error e
  | Except.ok xi =>
    let self1 : Point := ⟨Coord.fin xi, self.y⟩
    match intRound self1.y with
    | Except.error PyErr.overflowError => Except.ok self1
    | Except.error e => Except.error e
    | Except.ok yi => Except.ok ⟨Coord.fin xi, Coord.fin yi⟩

/-- `Point.min`: componentwise minimum via Python's builtin `min`. -/
def min (self pt : Point) : Point :=
  ⟨pymin self.x pt.x, pymin self.y pt.y⟩

/-- `Point.max`: componentwise maximum via Python's builtin `max`. -/
def max (self pt : Point) : Point :=
  ⟨pymax self.x pt.x, pymax self.y pt.y⟩

/-- Both coordinates lie in the real-valued-or-infinite domain. -/
def notNan (p : Point) : Prop := p.x.notNan ∧ p.y.notNan

end Point

/-- `BBox` from geometry.py: a min corner and a max corner. -/
structure BBox where
  min : Point
  max : Point
deriving DecidableEq

/-- An argument passed to `BBox.add` (or to the `BBox` constructor, which
forwards to `add`): a `Point`, a `BBox`, or an object of any other type. -/
inductive AddArg where
  | pt : Point → AddArg
  | box : BBox → AddArg
  | other : AddArg
deriving DecidableEq

namespace BBox

/-- The state set up by `BBox.__init__` before any argument is merged:
`min = Point(inf, inf)`, `max = Point(-inf, -inf)`. -/
def empty : BBox :=
  ⟨⟨Coord.pinf, Coord.pinf⟩, ⟨Coord.ninf, Coord.ninf⟩⟩

/-- One iteration of the loop body of `BBox.add` on a supported object
(a `Point` widens min/max with that point; a `BBox` widens min/max with
its corners; the unsupported case, which raises, is the identity here —
`addAll` below accounts for the raise). -/
def merge1 (self : BBox) : AddArg → BBox
  | AddArg.pt p => ⟨self.min.min p, self.max.max p⟩
  | AddArg.box b => ⟨self.min.min b.min, self.max.max b.max⟩
  | AddArg.other => self

/-- Merging a list of supported objects left to right (no raising case). -/
def mergeList (self : BBox) (objs : List AddArg) : BBox :=
  objs.foldl merge1 self

/-- `BBox.add(*objs)`: iterates over the arguments, widening the box for a
`Point` or `BBox` and raising `NotImplementedError` on anything else.  The
raise aborts the loop; since the earlier iterations already mutated `self`,
the error carries the state of the box at the moment of the raise. -/
def addAll (self : BBox) : List AddArg → Except (PyErr × BBox) BBox
  | [] => Except.ok self
  | AddArg.other :: _ => Except.error (PyErr.notImplementedError, self)
  | obj :: rest => (self.merge1 obj).addAll rest

/-- `BBox.__init__(*pts)`: start from the empty sentinel box and
`add` every argument (so it can raise like `add`). -/
def init (pts : List AddArg) : Except (PyErr × BBox) BBox :=
  BBox.empty.addAll pts

/-- `BBox.__round__(self, n)`: executes
`BBox(round(self.min), round(self.max))`.  Note the source passes *no*
`ndigits` to the inner `round` calls and never uses `n`. -/
def round_to (self : BBox) (n : ℤ) : Except PyErr BBox :=
  match self.min.pyRound none with
  | Except.error e => Except.error e
  | Except.ok p1 =>
    match self.max.pyRound none with
    | Except.error e => Except.error e
    | Except.ok p2 => Except.ok (BBox.empty.mergeList [AddArg.pt p1, AddArg.pt p2])

/-- `BBox.intersects(bbox)`:
`self.min.x < bbox.max.x and self.max.x > bbox.min.x and
 self.min.y < bbox.max.y and self.max.y > bbox.min.y`
(`a > b` on Python numbers is `b < a`). -/
def intersects (self bbox : BBox) : Bool :=
  self.min.x.lt bbox.max.x && bbox.min.x.lt self.max.x &&
    self.min.y.lt bbox.max.y && bbox.min.y.lt self.max.y

/-- `BBox.w`: `abs(self.max.x - self.min.x)`. -/
def w (self : BBox) : Coord := (self.max.x.sub self.min.x).abs

/-- `BBox.h`: `abs(self.max.y - self.min.y)`. -/
def h (self : BBox) : Coord := (self.max.y.sub self.min.y).abs

/-- `BBox.area`: `self.w * self.h`. -/
def area (self : BBox) : Coord := self.w.mul self.h

/-- The invariant of a box that has absorbed at least one real extent:
`min.x <= max.x` and `min.y <= max.y` (Python `<=`). -/
def proper (self : BBox) : Prop :=
  self.min.x.le self.max.x = true ∧ self.min.y.le self.max.y = true

/-- All four coordinates lie in the real-valued-or-infinite domain. -/
def notNan (self : BBox) : Prop := self.min.notNan ∧ self.max.notNan

end BBox

instance : DecidablePred Point.notNan := fun p => by unfold Point.notNan; infer_instance

instance : DecidablePred BBox.notNan := fun b => by unfold BBox.notNan; infer_instance

instance : DecidablePred BBox.proper := fun b => by unfold BBox.proper; infer_instance

namespace Coord

theorem notNan_of_lt {a b : Coord} (h : lt a b = true) : a.notNan ∧ b.notNan := by
  cases a <;> cases b <;> simp_all [lt, notNan]

theorem notNan_of_le {a b : Coord} (h : le a b = true) : a.notNan ∧ b.notNan := by
  cases a <;> cases b <;> simp_all [le, notNan]

theorem le_rfl {a : Coord} (ha : a.notNan) : le a a = true := by
  cases a <;> simp_all [le, notNan]

theorem le_of_lt {a b : Coord} (h : lt a b = true) : le a b = true := by
  cases a <;> cases b <;> simp_all [lt, le] <;> linarith

theorem le_of_not_lt {a b : Coord} (ha : a.notNan) (hb : b.notNan)
    (h : lt a b = false) : le b a = true := by
  cases a <;> cases b <;> simp_all [lt, le, notNan] <;> linarith

theorem le_trans' {a b c : Coord} (h1 : le a b = true) (h2 : le b c = true) :
    le a c = true := by
  cases a <;> cases b <;> cases c <;> simp_all [le] <;> linarith

end Coord

theorem pymin_le_left {a b : Coord} (ha : a.notNan) : (pymin a b).le a = true := by
  rw [pymin]
  split
  next h => exact Coord.le_of_lt h
  next h => exact Coord.le_rfl ha

theorem pymin_le_right {a b : Coord} (ha : a.notNan) (hb : b.notNan) :
    (pymin a b).le b = true := by
  rw [pymin]
  split
  next h => exact Coord.le_rfl hb
  next h =>
    have h' : Coord.lt b a = false := by simpa using h
    exact Coord.le_of_not_lt hb ha h'

theorem le_pymax_left {a b : Coord} (ha : a.notNan) : a.le (pymax a b) = true := by
  rw [pymax]
  split
  next h => exact Coord.le_of_lt h
  next h => exact Coord.le_rfl ha

theorem le_pymax_right {a b : Coord} (ha : a.notNan) (hb : b.notNan) :
    b.le (pymax a b) = true := by
  rw [pymax]
  split
  next h => exact Coord.le_rfl hb
  next h =>
    have h' : Coord.lt a b = false := by simpa using h
    exact Coord.le_of_not_lt ha hb h'

theorem pymin_notNan {a b : Coord} (ha : a.notNan) : (pymin a b).notNan := by
  rw [pymin]
  split
  next h => exact (Coord.notNan_of_lt h).1
  next h => exact ha

theorem pymax_notNan {a b : Coord} (ha : a.notNan) : (pymax a b).notNan := by
  rw [pymax]
  split
  next h => exact (Coord.notNan_of_lt h).2
  next h => exact ha

/-- Componentwise Python `<=` on Points. -/
def Point.le (p q : Point) : Prop := p.x.le q.x = true ∧ p.y.le q.y = true

/-- The merge argument carries a real extent: a `Point` whose coordinates
are in the real-valued-or-infinite domain, or a `BBox` that already
satisfies the `min <= max` invariant (i.e. a non-empty box). -/
def AddArg.establishes : AddArg → Prop
  | AddArg.pt p => p.notNan
  | AddArg.box b => b.proper
  | AddArg.other => False

theorem merge1_notNan {b : BBox} (hb : b.notNan) (o : AddArg) :
    (b.merge1 o).notNan := by
  cases o with
  | pt p =>
    exact ⟨⟨pymin_notNan hb.1.1, pymin_notNan hb.1.2⟩,
           ⟨pymax_notNan hb.2.1, pymax_notNan hb.2.2⟩⟩
  | box bb =>
    exact ⟨⟨pymin_notNan hb.1.1, pymin_notNan hb.1.2⟩,
           ⟨pymax_notNan hb.2.1, pymax_notNan hb.2.2⟩⟩
  | other => exact hb

theorem merge1_proper_of_establishes {b : BBox} {o : AddArg}
    (hb : b.notNan) (ho : o.establishes) : (b.merge1 o).proper := by
  cases o with
  | pt p =>
    exact ⟨Coord.le_trans' (pymin_le_right hb.1.1 ho.1) (le_pymax_right hb.2.1 ho.1),
           Coord.le_trans' (pymin_le_right hb.1.2 ho.2) (le_pymax_right hb.2.2 ho.2)⟩
  | box bb =>
    have h1 := Coord.notNan_of_le ho.1
    have h2 := Coord.notNan_of_le ho.2
    exact ⟨Coord.le_trans' (Coord.le_trans' (pymin_le_right hb.1.1 h1.1) ho.1)
             (le_pymax_right hb.2.1 h1.2),
           Coord.le_trans' (Coord.le_trans' (pymin_le_right hb.1.2 h2.1) ho.2)
             (le_pymax_right hb.2.2 h2.2)⟩
  | other => exact ho.elim

theorem merge1_proper_preserved {b : BBox} (hb : b.notNan) (hp : b.proper)
    (o : AddArg) : (b.merge1 o).proper := by
  cases o with
  | pt p =>
    exact ⟨Coord.le_trans' (Coord.le_trans' (pymin_le_left hb.1.1) hp.1)
             (le_pymax_left hb.2.1),
           Coord.le_trans' (Coord.le_trans' (pymin_le_left hb.1.2) hp.2)
             (le_pymax_left hb.2.2)⟩
  | box bb =>
    exact ⟨Coord.le_trans' (Coord.le_trans' (pymin_le_left hb.1.1) hp.1)
             (le_pymax_left hb.2.1),
           Coord.le_trans' (Coord.le_trans' (pymin_le_left hb.1.2) hp.2)
             (le_pymax_left hb.2.2)⟩
  | other => exact hp

theorem merge1_mono {b : BBox} (hb : b.notNan) (o : AddArg) :
    (b.merge1 o).min.le b.min ∧ b.max.le (b.merge1 o).max := by
  cases o with
  | pt p =>
    exact ⟨⟨pymin_le_left hb.1.1, pymin_le_left hb.1.2⟩,
           ⟨le_pymax_left hb.2.1, le_pymax_left hb.2.2⟩⟩
  | box bb =>
    exact ⟨⟨pymin_le_left hb.1.1, pymin_le_left hb.1.2⟩,
           ⟨le_pymax_left hb.2.1, le_pymax_left hb.2.2⟩⟩
  | other =>
    exact ⟨⟨Coord.le_rfl hb.1.1, Coord.le_rfl hb.1.2⟩,
           ⟨Coord.le_rfl hb.2.1, Coord.le_rfl hb.2.2⟩⟩

theorem mergeList_proper_aux :
    ∀ (objs : List AddArg) (b : BBox), b.notNan →
      (b.proper ∨ ∃ o ∈ objs, o.establishes) → (b.mergeList objs).proper := by
  intro objs
  induction objs with
  | nil =>
    intro b _ h
    rcases h with h | ⟨o, ho, _⟩
    · exact h
    · simp at ho
  | cons o rest ih =>
    intro b hb h
    have step : BBox.mergeList b (o :: rest) = BBox.mergeList (b.merge1 o) rest := rfl
    rw [step]
    apply ih (b.merge1 o) (merge1_notNan hb o)
    rcases h with h | ⟨o', ho', he⟩
    · exact Or.inl (merge1_proper_preserved hb h o)
    · rcases List.mem_cons.mp ho' with rfl | hmem
      · exact Or.inl (merge1_proper_of_establishes hb he)
      · exact Or.inr ⟨o', hmem, he⟩

theorem addAll_error_iff_aux :
    ∀ (args : List AddArg) (b : BBox),
      (∃ s, b.addAll args = Except.error (PyErr.notImplementedError, s)) ↔
        AddArg.other ∈ args := by
  intro args
  induction args with
  | nil => intro b; simp [BBox.addAll]
  | cons o rest ih =>
    intro b
    cases o with
    | pt p => simp [BBox.addAll, ih]
    | box bb => simp [BBox.addAll, ih]
    | other => simp [BBox.addAll]

theorem addAll_error_kind_aux :
    ∀ (args : List AddArg) (b : BBox) (e : PyErr) (s : BBox),
      b.addAll args = Except.error (e, s) → e = PyErr.notImplementedError := by
  intro args
  induction args with
  | nil => intro b e s h; simp [BBox.addAll] at h
  | cons o rest ih =>
    intro b e s h
    cases o with
    | pt p => exact ih _ _ _ h
    | box bb => exact ih _ _ _ h
    | other =>
      simp [BBox.addAll] at h
      exact h.1.symm

theorem addAll_append_other_aux :
    ∀ (good : List AddArg) (b : BBox) (rest : List AddArg), AddArg.other ∉ good →
      b.addAll (good ++ AddArg.other :: rest)
        = Except.error (PyErr.notImplementedError, b.mergeList good) := by
  intro good
  induction good with
  | nil => intro b rest _; rfl
  | cons o g ih =>
    intro b rest h
    cases o with
    | pt p =>
      have step : b.addAll ((AddArg.pt p :: g) ++ AddArg.other :: rest)
          = (b.merge1 (AddArg.pt p)).addAll (g ++ AddArg.other :: rest) := rfl
      rw [step, ih _ _ (fun hm => h (List.mem_cons_of_mem _ hm))]
      rfl
    | box bb =>
      have step : b.addAll ((AddArg.box bb :: g) ++ AddArg.other :: rest)
          = (b.merge1 (AddArg.box bb)).addAll (g ++ AddArg.other :: rest) := rfl
      rw [step, ih _ _ (fun hm => h (List.mem_cons_of_mem _ hm))]
      rfl
    | other => exact absurd (List.mem_cons_self _ _) h

namespace Coord

/-- `c` is a finite number. -/
def isFinite (c : Coord) : Prop := ∃ q : ℚ, c = fin q

theorem add_comm' (a b : Coord) : a.add b = b.add a := by
  cases a <;> cases b <;> simp [add] <;> ring

theorem sub_add_cancel' (a : Coord) (q : ℚ) :
    (a.sub (fin q)).add (fin q) = a := by
  cases a <;> simp [sub, neg, add] <;> ring

end Coord

instance : DecidablePred AddArg.establishes := fun o => by
  cases o <;> unfold AddArg.establishes <;> infer_instance

/-- C1: the spec says `BBox.round_to(n)` (`BBox.__round__`) returns a new
BBox whose min and max are rounded to `n` decimal digits via Point's
`round_to`.  The code instead executes `BBox(round(self.min), round(self.max))`,
ignoring `n` and calling the builtin `round` without `ndigits`; since
`Point.__round__(self, n)` requires `n`, every call raises `TypeError`
instead of returning a rounded box. -/
theorem bbox_round_to_always_raises :
    ∀ (b : BBox) (n : ℤ), b.round_to n = Except.error PyErr.typeError :=
  fun _ _ => rfl

/-- C2: `BBox.intersects` returns true iff the four strict (open-interval)
inequalities hold (`a > b` on Python floats being `b < a`); boxes sharing
only a touching edge, `BBox(Point(0,0),Point(1,1))` and
`BBox(Point(1,0),Point(2,1))`, report false, while the overlapping boxes
`BBox(Point(0,0),Point(2,2))` and `BBox(Point(1,1),Point(3,3))` report
true.  The concrete boxes are built exactly as the constructor builds them
(empty sentinel box, then merging the corner points). -/
theorem intersects_open_interval_rule :
    (∀ b1 b2 : BBox, b1.intersects b2 = true ↔
      (b1.min.x.lt b2.max.x = true ∧ b2.min.x.lt b1.max.x = true ∧
       b1.min.y.lt b2.max.y = true ∧ b2.min.y.lt b1.max.y = true)) ∧
    BBox.init [AddArg.pt ⟨Coord.fin 0, Coord.fin 0⟩, AddArg.pt ⟨Coord.fin 1, Coord.fin 1⟩]
      = Except.ok ⟨⟨Coord.fin 0, Coord.fin 0⟩, ⟨Coord.fin 1, Coord.fin 1⟩⟩ ∧
    BBox.init [AddArg.pt ⟨Coord.fin 1, Coord.fin 0⟩, AddArg.pt ⟨Coord.fin 2, Coord.fin 1⟩]
      = Except.ok ⟨⟨Coord.fin 1, Coord.fin 0⟩, ⟨Coord.fin 2, Coord.fin 1⟩⟩ ∧
    BBox.intersects ⟨⟨Coord.fin 0, Coord.fin 0⟩, ⟨Coord.fin 1, Coord.fin 1⟩⟩
      ⟨⟨Coord.fin 1, Coord.fin 0⟩, ⟨Coord.fin 2, Coord.fin 1⟩⟩ = false ∧
    BBox.init [AddArg.pt ⟨Coord.fin 0, Coord.fin 0⟩, AddArg.pt ⟨Coord.fin 2, Coord.fin 2⟩]
      = Except.ok ⟨⟨Coord.fin 0, Coord.fin 0⟩, ⟨Coord.fin 2, Coord.fin 2⟩⟩ ∧
    BBox.init [AddArg.pt ⟨Coord.fin 1, Coord.fin 1⟩, AddArg.pt ⟨Coord.fin 3, Coord.fin 3⟩]
      = Except.ok ⟨⟨Coord.fin 1, Coord.fin 1⟩, ⟨Coord.fin 3, Coord.fin 3⟩⟩ ∧
    BBox.intersects ⟨⟨Coord.fin 0, Coord.fin 0⟩, ⟨Coord.fin 2, Coord.fin 2⟩⟩
      ⟨⟨Coord.fin 1, Coord.fin 1⟩, ⟨Coord.fin 3, Coord.fin 3⟩⟩ = true :=
  ⟨fun b1 b2 => by simp [BBox.intersects, and_assoc],
   rfl, rfl, by decide, rfl, rfl, by decide⟩

/-- C3: `BBox()` with no arguments yields the sentinel box
`min = (inf, inf)`, `max = (-inf, -inf)`; after `add(Point(2, 3))` the box
has `min == max == Point(2, 3)` and `w`, `h` and `area` all equal 0. -/
theorem empty_bbox_then_add_point :
    BBox.init [] = Except.ok BBox.empty ∧
    BBox.empty.min = (⟨Coord.pinf, Coord.pinf⟩ : Point) ∧
    BBox.empty.max = (⟨Coord.ninf, Coord.ninf⟩ : Point) ∧
    BBox.empty.addAll [AddArg.pt ⟨Coord.fin 2, Coord.fin 3⟩]
      = Except.ok ⟨⟨Coord.fin 2, Coord.fin 3⟩, ⟨Coord.fin 2, Coord.fin 3⟩⟩ ∧
    (BBox.mk ⟨Coord.fin 2, Coord.fin 3⟩ ⟨Coord.fin 2, Coord.fin 3⟩).w = Coord.fin 0 ∧
    (BBox.mk ⟨Coord.fin 2, Coord.fin 3⟩ ⟨Coord.fin 2, Coord.fin 3⟩).h = Coord.fin 0 ∧
    (BBox.mk ⟨Coord.fin 2, Coord.fin 3⟩ ⟨Coord.fin 2, Coord.fin 3⟩).area = Coord.fin 0 :=
  ⟨rfl, rfl, rfl, rfl,
   by norm_num [BBox.w, Coord.sub, Coord.add, Coord.neg, Coord.abs],
   by norm_num [BBox.h, Coord.sub, Coord.add, Coord.neg, Coord.abs],
   by norm_num [BBox.area, BBox.w, BBox.h, Coord.sub, Coord.add, Coord.neg,
     Coord.abs, Coord.mul]⟩

/-- C4: `BBox.add` raises (`NotImplementedError`, the unsupported-operand
signal) precisely when one of its arguments is neither a `Point` nor a
`BBox`, and that is the only error `add` ever raises.  However, it is NOT
the only failure of the BBox API in the code: `BBox.__round__` raises
`TypeError` on every call (see C1), so the final conjunct exhibits that
second failure mode. -/
theorem bbox_add_error_iff_unsupported :
    (∀ (b : BBox) (args : List AddArg),
      ((∃ s, b.addAll args = Except.error (PyErr.notImplementedError, s)) ↔
        AddArg.other ∈ args) ∧
      (∀ e s, b.addAll args = Except.error (e, s) → e = PyErr.notImplementedError)) ∧
    BBox.round_to ⟨⟨Coord.fin 0, Coord.fin 0⟩, ⟨Coord.fin 1, Coord.fin 1⟩⟩ 2
      = Except.error PyErr.typeError :=
  ⟨fun b args => ⟨addAll_error_iff_aux args b, fun e s h => addAll_error_kind_aux args b e s h⟩,
   rfl⟩

theorem bbox_add_error_iff_unsupported_witness :
    (∃ s, BBox.empty.addAll [AddArg.other]
        = Except.error (PyErr.notImplementedError, s)) ∧
    PyErr.notImplementedError = PyErr.notImplementedError :=
  ⟨((bbox_add_error_iff_unsupported.1 BBox.empty [AddArg.other]).1).mpr (by simp),
   (bbox_add_error_iff_unsupported.1 BBox.empty [AddArg.other]).2
     PyErr.notImplementedError BBox.empty rfl⟩

/-- C5: starting from the empty sentinel box, merging a sequence of
arguments at least one of which carries a real extent — a Point (with
coordinates in the real-valued-or-infinite domain of the data model) or a
non-empty BBox (one already satisfying `min <= max`) — yields a box with
`min.x <= max.x` and `min.y <= max.y`; and each merge step is monotonic:
the new min is componentwise `<=` the old min and the old max is
componentwise `<=` the new max, so the box never shrinks. -/
theorem bbox_merge_invariant_and_monotonic :
    (∀ objs : List AddArg, (∃ o ∈ objs, o.establishes) →
      (BBox.empty.mergeList objs).proper) ∧
    (∀ (b : BBox) (o : AddArg), b.notNan →
      (b.merge1 o).min.le b.min ∧ b.max.le (b.merge1 o).max) :=
  ⟨fun objs h => mergeList_proper_aux objs BBox.empty (by decide) (Or.inr h),
   fun _ o hb => merge1_mono hb o⟩

theorem bbox_merge_invariant_and_monotonic_witness :
    (BBox.empty.mergeList [AddArg.pt ⟨Coord.fin 2, Coord.fin 3⟩]).proper ∧
    ((BBox.empty.merge1 (AddArg.pt ⟨Coord.fin 2, Coord.fin 3⟩)).min.le BBox.empty.min ∧
      BBox.empty.max.le (BBox.empty.merge1 (AddArg.pt ⟨Coord.fin 2, Coord.fin 3⟩)).max) :=
  ⟨bbox_merge_invariant_and_monotonic.1 [AddArg.pt ⟨Coord.fin 2, Coord.fin 3⟩]
     ⟨AddArg.pt ⟨Coord.fin 2, Coord.fin 3⟩, by simp, by decide⟩,
   bbox_merge_invariant_and_monotonic.2 BBox.empty
     (AddArg.pt ⟨Coord.fin 2, Coord.fin 3⟩) (by decide)⟩

/-- C6: `Point` addition (and subtraction) is componentwise and a plain
scalar right operand is first broadcast to `Point(scalar, scalar)`, so
`add(a, s) = Point(a.x + s, a.y + s)` and
`subtract(a, s) = Point(a.x - s, a.y - s)` for every point `a` and scalar `s`. -/
theorem point_add_sub_scalar_broadcast :
    ∀ (a b : Point) (s : Coord),
      a.add (PtOrNum.pt b) = ⟨a.x.add b.x, a.y.add b.y⟩ ∧
      a.sub (PtOrNum.pt b) = ⟨a.x.sub b.x, a.y.sub b.y⟩ ∧
      a.add (PtOrNum.num s) = a.add (PtOrNum.pt ⟨s, s⟩) ∧
      a.add (PtOrNum.num s) = ⟨a.x.add s, a.y.add s⟩ ∧
      a.sub (PtOrNum.num s) = a.sub (PtOrNum.pt ⟨s, s⟩) ∧
      a.sub (PtOrNum.num s) = ⟨a.x.sub s, a.y.sub s⟩ :=
  fun _ _ _ => ⟨rfl, rfl, rfl, rfl, rfl, rfl⟩

/-- C7 counterexample: the subtract-then-add round trip
`add(subtract(a, b), b) == a` fails when `b` holds the infinite sentinel:
with `a = Point(0, 0)` and `b = Point(inf, inf)`, `subtract(a, b)` is
`Point(-inf, -inf)` and adding `b` back gives `Point(nan, nan)`, not `a`.
So the claim's round-trip identity does not hold for all Points of the
data model (which explicitly admits infinite coordinates). -/
theorem point_sub_add_round_trip_cex :
    (Point.sub ⟨Coord.fin 0, Coord.fin 0⟩ (PtOrNum.pt ⟨Coord.pinf, Coord.pinf⟩)).add
        (PtOrNum.pt ⟨Coord.pinf, Coord.pinf⟩) ≠ ⟨Coord.fin 0, Coord.fin 0⟩ := by
  decide

/-- C7 (amended): `add(a, b) == add(b, a)` for all Points, and
`add(subtract(a, b), b) == a` whenever both coordinates of `b` are finite
(for infinite `b` the round trip produces `nan`, see the counterexample). -/
theorem point_add_comm_and_round_trip :
    ∀ a b : Point,
      a.add (PtOrNum.pt b) = b.add (PtOrNum.pt a) ∧
      (b.x.isFinite → b.y.isFinite →
        (a.sub (PtOrNum.pt b)).add (PtOrNum.pt b) = a) := by
  intro a b
  constructor
  · show (⟨a.x.add b.x, a.y.add b.y⟩ : Point) = ⟨b.x.add a.x, b.y.add a.y⟩
    rw [Coord.add_comm' a.x b.x, Coord.add_comm' a.y b.y]
  · rintro ⟨qx, hx⟩ ⟨qy, hy⟩
    show (⟨(a.x.sub b.x).add b.x, (a.y.sub b.y).add b.y⟩ : Point) = a
    rw [hx, hy, Coord.sub_add_cancel', Coord.sub_add_cancel']

theorem point_add_comm_and_round_trip_witness :
    (Point.sub ⟨Coord.fin 1, Coord.fin 2⟩ (PtOrNum.pt ⟨Coord.fin 3, Coord.fin 4⟩)).add
        (PtOrNum.pt ⟨Coord.fin 3, Coord.fin 4⟩) = ⟨Coord.fin 1, Coord.fin 2⟩ :=
  (point_add_comm_and_round_trip ⟨Coord.fin 1, Coord.fin 2⟩
    ⟨Coord.fin 3, Coord.fin 4⟩).2 ⟨3, rfl⟩ ⟨4, rfl⟩

/-- C8: `Point.round` (in-place rounding) on a Point holding
`(+inf, +inf)` raises nothing and leaves the point unchanged: converting
the infinite sentinel raises `OverflowError`, which the
`except OverflowError: pass` deliberately swallows before any coordinate
was reassigned. -/
theorem point_round_inf_unchanged :
    Point.round ⟨Coord.pinf, Coord.pinf⟩ = Except.ok ⟨Coord.pinf, Coord.pinf⟩ :=
  rfl

/-- C9: `Point.round` is not atomic under overflow.  With a finite `x` and
an infinite `y` it succeeds, having already replaced `x` by its rounded
integer while `y` stays unchanged; with an infinite `x` the overflow
aborts the whole `try` body before any assignment, so neither coordinate
changes regardless of `y`. -/
theorem point_round_partial_mutation :
    (∀ (q : ℚ) (cy : Coord), (cy = Coord.pinf ∨ cy = Coord.ninf) →
      Point.round ⟨Coord.fin q, cy⟩
        = Except.ok ⟨Coord.fin (roundHalfEven q), cy⟩) ∧
    (∀ cx cy : Coord, (cx = Coord.pinf ∨ cx = Coord.ninf) →
      Point.round ⟨cx, cy⟩ = Except.ok ⟨cx, cy⟩) := by
  constructor
  · rintro q cy (rfl | rfl) <;> rfl
  · rintro cx cy (rfl | rfl) <;> rfl

theorem point_round_partial_mutation_witness :
    Point.round ⟨Coord.fin 3, Coord.pinf⟩ = Except.ok ⟨Coord.fin 3, Coord.pinf⟩ ∧
    Point.round ⟨Coord.ninf, Coord.fin 7⟩ = Except.ok ⟨Coord.ninf, Coord.fin 7⟩ := by
  constructor
  · have h := point_round_partial_mutation.1 3 Coord.pinf (Or.inl rfl)
    simpa [show roundHalfEven 3 = 3 by norm_num [roundHalfEven]] using h
  · exact point_round_partial_mutation.2 Coord.ninf (Coord.fin 7) (Or.inr rfl)

/-- C10: `BBox.add` is not atomic on error: with supported arguments in
front of an unsupported one, the raise happens only after those arguments
have already widened the box, so the error state is the box merged with
the leading supported arguments — observably different from the state
before the call (shown at the concrete input: the empty box with
`Point(2, 3)` then an unsupported object). -/
theorem bbox_add_not_atomic :
    (∀ (b : BBox) (good rest : List AddArg), AddArg.other ∉ good →
      b.addAll (good ++ AddArg.other :: rest)
        = Except.error (PyErr.notImplementedError, b.mergeList good)) ∧
    BBox.empty.addAll [AddArg.pt ⟨Coord.fin 2, Coord.fin 3⟩, AddArg.other]
      = Except.error (PyErr.notImplementedError,
          ⟨⟨Coord.fin 2, Coord.fin 3⟩, ⟨Coord.fin 2, Coord.fin 3⟩⟩) ∧
    (⟨⟨Coord.fin 2, Coord.fin 3⟩, ⟨Coord.fin 2, Coord.fin 3⟩⟩ : BBox) ≠ BBox.empty :=
  ⟨fun b good rest h => addAll_append_other_aux good b rest h, rfl, by decide⟩

theorem bbox_add_not_atomic_witness :
    BBox.empty.addAll ([AddArg.pt ⟨Coord.fin 2, Coord.fin 3⟩] ++ AddArg.other :: [])
      = Except.error (PyErr.notImplementedError,
          BBox.empty.mergeList [AddArg.pt ⟨Coord.fin 2, Coord.fin 3⟩]) :=
  bbox_add_not_atomic.1 BBox.empty [AddArg.pt ⟨Coord.fin 2, Coord.fin 3⟩] [] (by simp)
